import Mathlib

/-!
Shallow embedding of the zni/chains NES emulator (Python) and proofs about
the claims of its specification.

Translation conventions for Python integer semantics, used throughout:
* Python `%` on ints always returns a value in `[0, m)`, i.e. `Int.emod`.
* Python `x & 0xFF` (two's complement) equals `x mod 256`; `x & 0xFFFF`
  equals `x mod 65536`; `x & 0xFF00` equals `x mod 65536 - x mod 256`
  (bits 8..15); `(x & 0xFF00) >> 8` equals `(x mod 65536) / 256`.
* Python `a | b` where the set bits of `a` and `b` are disjoint equals
  `a + b`; this is used where one operand is a small value and the other a
  mask with zero low bits (e.g. `x | 0x0100` with `x < 256`).
* Where no algebraic reasoning is needed, bitwise operators are kept as
  `Nat` bitwise operators on the (provably nonnegative) values.
* Python `list` cells of `RAM.store` are modelled by a total function
  `Nat → Nat`; every CPU-side access in the claims lands inside the
  65536-cell list, except the OAM store, which is modelled with an
  explicit 256-entry list and explicit IndexError results.
* A Python exception is modelled as an `Option PyErr` component of the
  result; when an exception escapes mid-routine the partially mutated
  state is returned alongside the error, matching in-place mutation.
-/

namespace Chains

/-- Python exception values that the embedded code can raise. -/
inductive PyErr where
  | attributeErr (msg : String)
  | typeErr (msg : String)
  | indexErr (msg : String)
  deriving DecidableEq

/-- registers/status.py, class FlagRegister: seven flag fields, each a
Python int that the code keeps at 0 or 1. -/
structure Flags where
  sign : Nat
  overflow : Nat
  breakFlag : Nat
  decimal : Nat
  interrupt : Nat
  zero : Nat
  carry : Nat
  deriving DecidableEq

/-- registers/status.py FlagRegister.update_sign. -/
def Flags.update_sign (f : Flags) (val : Nat) : Flags :=
  if val &&& 0x80 ≠ 0 then { f with sign := 1 } else { f with sign := 0 }

/-- registers/status.py FlagRegister.update_zero. -/
def Flags.update_zero (f : Flags) (val : Nat) : Flags :=
  if val = 0 then { f with zero := 1 } else { f with zero := 0 }

/-- registers/status.py FlagRegister.update_carry (status.py:35-45).  Its
second parameter is named `bit7`; when `bit7` the helper tests bit 7 of
`val`, otherwise bit 0. -/
def Flags.update_carry (f : Flags) (val : Nat) (bit7 : Bool) : Flags :=
  if bit7 then
    if val &&& 0x80 ≠ 0 then { f with carry := 1 } else { f with carry := 0 }
  else
    if val &&& 0x01 ≠ 0 then { f with carry := 1 } else { f with carry := 0 }

/-- registers/status.py FlagRegister.update_flags (restore from a pushed
byte). -/
def Flags.update_flags (_f : Flags) (val : Nat) : Flags :=
  { sign := (0x80 &&& val) >>> 7
    overflow := (0x40 &&& val) >>> 6
    breakFlag := (0x10 &&& val) >>> 4
    decimal := (0x08 &&& val) >>> 3
    interrupt := (0x04 &&& val) >>> 2
    zero := (0x02 &&& val) >>> 1
    carry := 0x01 &&& val }

/-- registers/status.py FlagRegister.to_int: pack as
[sign, overflow, 0, break, decimal, interrupt, zero, carry], MSB first. -/
def Flags.to_int (f : Flags) : Nat :=
  f.sign * 128 + f.overflow * 64 + f.breakFlag * 16 + f.decimal * 8 +
    f.interrupt * 4 + f.zero * 2 + f.carry

/-- utils/sign.py to_8bit_signed.  For `n ≥ 0`, Python `~n & 0xff` equals
`255 - n % 256`. -/
def to_8bit_signed (n : Nat) : Int :=
  if n &&& 0x80 ≠ 0 then -(((255 - n % 256) + 1 : Nat) : Int) else (n : Int)

/-- Python bitwise AND of an arbitrary int with a mask below 2^16: two's
complement truncates to the mask, so `x & mask = (x mod 2^16) &&& mask`. -/
def pyAnd16 (x : Int) (mask : Nat) : Nat :=
  (x % 65536).toNat &&& mask

/-! ### registers/pc.py ProgramCounter

`reg` is a Python int: the handlers occasionally drive it outside
0..0xFFFF (`reg -= 1` in JSR, the unmasked add in `displace_pc`), so it is
modelled as `Int`. -/

/-- ProgramCounter.pc_lo: `0x00FF & reg`. -/
def pcLo (reg : Int) : Nat := (reg % 256).toNat

/-- ProgramCounter.pc_hi: `(0xFF00 & reg) >> 8` = bits 8..15. -/
def pcHi (reg : Int) : Nat := ((reg % 65536) / 256).toNat

/-- ProgramCounter.set_pc_lo: `(reg & 0xFF00) | (pc_lo & 0xFF)`; the two
operands have disjoint bits, so `|` is `+`. -/
def setPcLo (reg : Int) (lo : Nat) : Int :=
  (reg % 65536 - reg % 256) + ((lo % 256 : Nat) : Int)

/-- ProgramCounter.set_pc_hi: `(pc_hi << 8) | (reg & 0xFF)` then
`&= 0xFFFF`; again disjoint bits, so `|` is `+`. -/
def setPcHi (reg : Int) (hi : Nat) : Int :=
  ((hi : Int) * 256 + reg % 256) % 65536

/-- ProgramCounter.advance_pc: `reg = (reg + 1) & 0xFFFF`. -/
def advancePc (reg : Int) : Int := (reg + 1) % 65536

/-- ProgramCounter.displace_pc: advance, then add the displacement with no
16-bit mask. -/
def displacePc (reg : Int) (displacement : Int) : Int :=
  advancePc reg + displacement

/-! ### memory/stack.py Stack

The stack pointer `_sp` lives in `0x100..0x1FF` once constructed
(origin 0x1FF, and both adjustments mask into page 1).
`((sp - 1) & 0xFF) | 0x0100` is `((sp - 1) mod 256) + 0x100` because the
left operand is below 256. -/

/-- Stack._decrement_sp. -/
def decSp (sp : Nat) : Nat := (((sp : Int) - 1) % 256).toNat + 0x100

/-- Stack._increment_sp. -/
def incSp (sp : Nat) : Nat := (((sp : Int) + 1) % 256).toNat + 0x100

/-! ### MPU state (core/mpu.py) -/

/-- The registers and RAM of core/mpu.py MPU: program counter, A, X, Y,
flag register, the stack pointer of the contained Stack, and the RAM store
(a 65536-cell Python list, modelled as a total function). -/
structure MPUState where
  pc : Int
  a : Nat
  x : Nat
  y : Nat
  flags : Flags
  sp : Nat
  ram : Nat → Nat

/-- core/mpu.py MPU.read (mpu.py:1477): `self._ram.store[loc % 0xFFFF]`.
Note the modulus is 0xFFFF = 65535, not 0x10000. -/
def mpuRead (st : MPUState) (loc : Int) : Nat :=
  st.ram ((loc % 65535)).toNat

/-- core/mpu.py MPU.write (mpu.py:1486): `self._ram.store[loc % 0xFFFF] = data`. -/
def mpuWrite (st : MPUState) (loc : Int) (d : Nat) : MPUState :=
  { st with ram := Function.update st.ram ((loc % 65535)).toNat d }

/-- memory/stack.py Stack.push: store at `_sp`, then decrement. -/
def push (st : MPUState) (d : Nat) : MPUState :=
  { st with ram := Function.update st.ram st.sp d, sp := decSp st.sp }

/-- memory/stack.py Stack.pop: increment, then read at `_sp`. -/
def pop (st : MPUState) : Nat × MPUState :=
  let sp1 := incSp st.sp
  (st.ram sp1, { st with sp := sp1 })

/-! ### core/bus.py Bus and the PPU side of the bus

The Bus is constructed with an mpu `BusMember`, a ppu `BusMember`, and the
two port maps (`ro_mmap`, `w_mmap`).  The MPU member is the embedded
`MPUState`; the PPU member is kept abstract (a state type `π` together
with its `read`/`write`/`dma` methods), since no claim depends on the
internals of the PPU's port objects. -/

/-- The `BusMember` methods of the PPU object that the Bus calls:
`read`, `write` and `dma` (core/bus_member.py; implemented in
core/ppu.py PPU). -/
structure PpuIface (π : Type) where
  read : π → Int → Nat × π
  write : π → Int → Nat → π
  dmaPage : π → Nat

/-- The machine visible to the bus: the MPU (with its RAM) and the PPU. -/
structure Sys (π : Type) where
  mpu : MPUState
  ppu : π

/-- core/bus.py Bus: the two memory maps and the ppu member. -/
structure Bus (π : Type) where
  roMmap : List Int
  wMmap : List Int
  iface : PpuIface π

/-- The keys of ppu.py's read-only memory map (ppu.py:274-278), the only
`ro_mmap` defined in the repository. -/
def ro_mmap : List Int := [0x2002, 0x2004]

/-- The keys of ppu.py's write memory map (ppu.py:281-291). -/
def w_mmap : List Int :=
  [0x2000, 0x2001, 0x2002, 0x2003, 0x2004, 0x2005, 0x2006, 0x2007, 0x4014]

/-- A Bus wired with the repository's port maps. -/
def mkBus {π : Type} (iface : PpuIface π) : Bus π :=
  { roMmap := ro_mmap, wMmap := w_mmap, iface := iface }

/-- core/bus.py Bus._mirror_map_ppu (bus.py:23-28):
`((loc % 0x2000) % 8) | 0x2000` for `0x2008 ≤ loc ≤ 0x3FFF`; the left
operand is below 8, so `| 0x2000` is `+ 0x2000`. -/
def mirrorMapPpu (loc : Int) : Int :=
  if 0x2008 ≤ loc ∧ loc ≤ 0x3FFF then (loc % 0x2000) % 8 + 0x2000
  else loc

/-- core/bus.py Bus.read (bus.py:15-21). -/
def Bus.read {π : Type} (b : Bus π) (s : Sys π) (loc : Int) : Nat × Sys π :=
  let l := mirrorMapPpu loc
  if l ∈ b.roMmap then
    let vp := b.iface.read s.ppu l
    (vp.1, { s with ppu := vp.2 })
  else
    (mpuRead s.mpu l, s)

/-- memory/ram.py RAM.dma_transfer, with `to` the ppu member: copy the 256
bytes of page `page` of the MPU store to `to.write(0, ...)`,
`to.write(1, ...)`, ... in order. -/
def dmaTransfer {π : Type} (b : Bus π) (s : Sys π) (page : Nat) : Sys π :=
  let base := (page <<< 8) &&& 0xFF00
  (List.range 256).foldl
    (fun s2 (n : Nat) =>
      { s2 with ppu := b.iface.write s2.ppu (n : Int) (s2.mpu.ram (base + n)) }) s

/-- core/bus.py Bus.write (bus.py:30-41): route to the ppu ports, with the
extra DMA rule on 0x4014 (`OAM.DMA`), else to the MPU. -/
def Bus.write {π : Type} (b : Bus π) (s : Sys π) (loc : Int) (d : Nat) : Sys π :=
  let l := mirrorMapPpu loc
  if l ∈ b.wMmap ∧ l ≠ 0x4014 then
    { s with ppu := b.iface.write s.ppu l d }
  else if l ∈ b.wMmap ∧ l = 0x4014 then
    let s2 := { s with ppu := b.iface.write s.ppu l d }
    dmaTransfer b s2 (b.iface.dmaPage s2.ppu)
  else
    { s with mpu := mpuWrite s.mpu l d }

/-- memory/ram.py RAM._mirror_map (ram.py:10-20), kept with the literals
of the source: the first branch tests `loc <= 0x07FFF` (five hex digits,
= 32767), so every address below 0x8000 is returned unchanged and the
three mirror branches below it are unreachable. -/
def ramMirrorMap (loc : Int) : Int :=
  if 0x0000 ≤ loc ∧ loc ≤ 0x07FFF then loc
  else if 0x0800 ≤ loc ∧ loc ≤ 0x0FFF then loc - 0x0800
  else if 0x1000 ≤ loc ∧ loc ≤ 0x17FF then loc - 0x1000
  else if 0x1800 ≤ loc ∧ loc ≤ 0x1FFF then loc - 0x1800
  else loc

/-! ### Instruction handlers (core/mpu.py)

A handler runs after `execute` has fetched the opcode, so the `pc` of the
incoming state points at the handler's first operand byte.  For ADC, SBC,
CMP, CPX and CPY the addressing-mode dispatch only produces the operand
byte `data`; the `...Data` functions below are the bodies of the handlers
after that dispatch (the immediate mode, `_mode_imm`, is `_data_fetch`:
read the byte at pc and advance). -/

/-- core/mpu.py MPU._adc (mpu.py:343-379), body after the mode dispatch
has produced `data`.  All four flag updates are applied to the OLD
accumulator, and `self._flags.update_overflow(result, self._a, data)`
raises AttributeError because FlagRegister (registers/status.py) defines
no `update_overflow`; the final `self._a = result & 0xFF` is never
reached. -/
def adcData (st : MPUState) (data : Nat) : MPUState × Option PyErr :=
  let _result := st.a + data + st.flags.carry
  let f1 := st.flags.update_carry st.a true
  let f2 := f1.update_sign st.a
  let f3 := f2.update_zero st.a
  ({ st with flags := f3 },
    some (.attributeErr "FlagRegister object has no attribute update_overflow"))

/-- core/mpu.py MPU._sbc (mpu.py:1055-1094), body after the mode dispatch
has produced `data`.  `result = (self._a - data) - self._flags.carry`
(subtracting C, not 1 - C); then `update_sign(self._a)` runs on the old
accumulator, and `self._flags.update_overflow(result, self._a, data)`
raises AttributeError (no such method on FlagRegister), so the zero flag,
the carry (`1 if result & 0xFF00 else 0`, i.e. set exactly when the
Python difference is negative) and `self._a = result & 0xFF` are never
reached. -/
def sbcData (st : MPUState) (data : Nat) : MPUState × Option PyErr :=
  let _result : Int := ((st.a : Int) - (data : Int)) - (st.flags.carry : Int)
  let f1 := st.flags.update_sign st.a
  ({ st with flags := f1 },
    some (.attributeErr "FlagRegister object has no attribute update_overflow"))

/-- core/mpu.py MPU._cmp (mpu.py:575-612), body after the mode dispatch:
`result = self._a - data`; zero from `(result & 0xFF) == 0`, sign from
`(result & 0xFF) & 0x80 == 0x80`, carry from `(result & 0xFF00) != 0`. -/
def cmpData (st : MPUState) (data : Nat) : MPUState :=
  let result : Int := (st.a : Int) - (data : Int)
  let f1 := if pyAnd16 result 0xFF = 0 then { st.flags with zero := 1 }
            else { st.flags with zero := 0 }
  let f2 := if pyAnd16 result 0xFF &&& 0x80 = 0x80 then { f1 with sign := 1 }
            else { f1 with sign := 0 }
  let f3 := if pyAnd16 result 0xFF00 ≠ 0 then { f2 with carry := 1 }
            else { f2 with carry := 0 }
  { st with flags := f3 }

/-- core/mpu.py MPU._cpx (mpu.py:614-642), body after the mode dispatch:
like `_cmp` on X, with sign from `result & 0x80 == 0x80`. -/
def cpxData (st : MPUState) (data : Nat) : MPUState :=
  let result : Int := (st.x : Int) - (data : Int)
  let f1 := if pyAnd16 result 0xFF = 0 then { st.flags with zero := 1 }
            else { st.flags with zero := 0 }
  let f2 := if pyAnd16 result 0x80 = 0x80 then { f1 with sign := 1 }
            else { f1 with sign := 0 }
  let f3 := if pyAnd16 result 0xFF00 ≠ 0 then { f2 with carry := 1 }
            else { f2 with carry := 0 }
  { st with flags := f3 }

/-- core/mpu.py MPU._cpy (mpu.py:644-671), body after the mode dispatch:
like `_cpx` on Y. -/
def cpyData (st : MPUState) (data : Nat) : MPUState :=
  let result : Int := (st.y : Int) - (data : Int)
  let f1 := if pyAnd16 result 0xFF = 0 then { st.flags with zero := 1 }
            else { st.flags with zero := 0 }
  let f2 := if pyAnd16 result 0x80 = 0x80 then { f1 with sign := 1 }
            else { f1 with sign := 0 }
  let f3 := if pyAnd16 result 0xFF00 ≠ 0 then { f2 with carry := 1 }
            else { f2 with carry := 0 }
  { st with flags := f3 }

/-- core/mpu.py MPU._ror in accumulator mode (mpu.py:1006-1032):
`data = self._a; addr = None; current_carry = self._flags.carry;` then
`self._flags.update_carry(data, bit_high=False)`.  `update_carry`'s
second parameter is named `bit7` (registers/status.py:35), so this call
raises TypeError (unexpected keyword argument) before mutating anything:
the state is returned unchanged together with the error. -/
def rorAcc (st : MPUState) : MPUState × Option PyErr :=
  (st, some (.typeErr "update_carry got an unexpected keyword argument bit_high"))

/-- core/mpu.py MPU._rol in accumulator mode (mpu.py:977-1003):
`current_carry = carry; data = data << 1; update_carry(data)` (bit7
positional default, i.e. bit 7 of the shifted value = bit 6 of the
original); `data |= current_carry; self._a = data & 0xFF`. -/
def rolAcc (st : MPUState) : MPUState :=
  let data1 := st.a <<< 1
  let f1 := st.flags.update_carry data1 true
  let data2 := data1 ||| st.flags.carry
  { st with a := data2 % 256, flags := f1 }

/-- core/mpu.py MPU._data_fetch (mpu.py:1238-1241): read the byte at pc
through the bus and advance the pc. -/
def dataFetch {π : Type} (b : Bus π) (s : Sys π) : Nat × Sys π :=
  let r := b.read s s.mpu.pc
  (r.1, { r.2 with mpu := { r.2.mpu with pc := advancePc r.2.mpu.pc } })

/-- core/mpu.py MPU._addr_fetch (mpu.py:1248-1254): two operand bytes,
little endian. -/
def addrFetch {π : Type} (b : Bus π) (s : Sys π) : Nat × Sys π :=
  let rLo := dataFetch b s
  let rHi := dataFetch b rLo.2
  ((rHi.1 <<< 8) ||| rLo.1, rHi.2)

/-! The eight relative-branch handlers (core/mpu.py).  Each one is only
ever dispatched with `AddressingMode.REL` (the mode guard that raises
`IllegalAddressingMode` otherwise is omitted): read the displacement byte,
advance the pc, and if the condition holds call
`displace_pc(to_8bit_signed(displacement))`. -/

/-- core/mpu.py MPU._bcc (mpu.py:445-452): branch when carry = 0. -/
def bcc {π : Type} (b : Bus π) (s : Sys π) : Sys π :=
  let r := dataFetch b s
  let s1 := r.2
  if s1.mpu.flags.carry = 0 then
    { s1 with mpu := { s1.mpu with pc := displacePc s1.mpu.pc (to_8bit_signed r.1) } }
  else s1

/-- core/mpu.py MPU._bcs (mpu.py:454-463): branch when carry = 1. -/
def bcs {π : Type} (b : Bus π) (s : Sys π) : Sys π :=
  let r := dataFetch b s
  let s1 := r.2
  if s1.mpu.flags.carry = 1 then
    { s1 with mpu := { s1.mpu with pc := displacePc s1.mpu.pc (to_8bit_signed r.1) } }
  else s1

/-- core/mpu.py MPU._beq (mpu.py:465-472): branch when zero = 1. -/
def beq {π : Type} (b : Bus π) (s : Sys π) : Sys π :=
  let r := dataFetch b s
  let s1 := r.2
  if s1.mpu.flags.zero = 1 then
    { s1 with mpu := { s1.mpu with pc := displacePc s1.mpu.pc (to_8bit_signed r.1) } }
  else s1

/-- core/mpu.py MPU._bne (mpu.py:500-509): branch when zero = 0. -/
def bne {π : Type} (b : Bus π) (s : Sys π) : Sys π :=
  let r := dataFetch b s
  let s1 := r.2
  if s1.mpu.flags.zero = 0 then
    { s1 with mpu := { s1.mpu with pc := displacePc s1.mpu.pc (to_8bit_signed r.1) } }
  else s1

/-- core/mpu.py MPU._bmi (mpu.py:491-498): branch when sign = 1. -/
def bmi {π : Type} (b : Bus π) (s : Sys π) : Sys π :=
  let r := dataFetch b s
  let s1 := r.2
  if s1.mpu.flags.sign = 1 then
    { s1 with mpu := { s1.mpu with pc := displacePc s1.mpu.pc (to_8bit_signed r.1) } }
  else s1

/-- core/mpu.py MPU._bpl (mpu.py:511-518): branch when sign = 0. -/
def bpl {π : Type} (b : Bus π) (s : Sys π) : Sys π :=
  let r := dataFetch b s
  let s1 := r.2
  if s1.mpu.flags.sign = 0 then
    { s1 with mpu := { s1.mpu with pc := displacePc s1.mpu.pc (to_8bit_signed r.1) } }
  else s1

/-- core/mpu.py MPU._bvc (mpu.py:533-540): branch when overflow = 0. -/
def bvc {π : Type} (b : Bus π) (s : Sys π) : Sys π :=
  let r := dataFetch b s
  let s1 := r.2
  if s1.mpu.flags.overflow = 0 then
    { s1 with mpu := { s1.mpu with pc := displacePc s1.mpu.pc (to_8bit_signed r.1) } }
  else s1

/-- core/mpu.py MPU._bvs (mpu.py:542-549): branch when overflow = 1. -/
def bvs {π : Type} (b : Bus π) (s : Sys π) : Sys π :=
  let r := dataFetch b s
  let s1 := r.2
  if s1.mpu.flags.overflow = 1 then
    { s1 with mpu := { s1.mpu with pc := displacePc s1.mpu.pc (to_8bit_signed r.1) } }
  else s1

/-- core/mpu.py MPU._jsr with `AddressingMode.ABS` (mpu.py:802-816):
fetch the 16-bit target (`_mode_abs(data_fetch=False)` = `_addr_fetch`),
decrement the pc by one (unmasked), push pc-hi then pc-lo, jump. -/
def jsr {π : Type} (b : Bus π) (s : Sys π) : Sys π :=
  let r := addrFetch b s
  let m1 := { r.2.mpu with pc := r.2.mpu.pc - 1 }
  let m2 := push m1 (pcHi m1.pc)
  let m3 := push m2 (pcLo m2.pc)
  { r.2 with mpu := { m3 with pc := (r.1 : Int) } }

/-- core/mpu.py MPU._rts (mpu.py:1043-1053): pop pc-lo, set it, pop
pc-hi, set it, advance. -/
def rts {π : Type} (s : Sys π) : Sys π :=
  let p1 := pop s.mpu
  let m1 := { p1.2 with pc := setPcLo p1.2.pc p1.1 }
  let p2 := pop m1
  let m2 := { p2.2 with pc := setPcHi p2.2.pc p2.1 }
  { s with mpu := { m2 with pc := advancePc m2.pc } }

/-- core/mpu.py MPU._brk (mpu.py:520-531): `pc += 2` (unmasked), push
pc-hi and pc-lo, `pc -= 2`, push the packed flags, then load the pc
halves from `bus.read(0xFFFE)` and `bus.read(0xFFFF)`. -/
def brk {π : Type} (b : Bus π) (s : Sys π) : Sys π :=
  let m1 := { s.mpu with pc := s.mpu.pc + 2 }
  let m2 := push m1 (pcHi m1.pc)
  let m3 := push m2 (pcLo m2.pc)
  let m4 := { m3 with pc := m3.pc - 2 }
  let m5 := push m4 m4.flags.to_int
  let s1 := { s with mpu := m5 }
  let rLo := b.read s1 0xFFFE
  let s2 := { rLo.2 with mpu := { rLo.2.mpu with pc := setPcLo rLo.2.mpu.pc rLo.1 } }
  let rHi := b.read s2 0xFFFF
  { rHi.2 with mpu := { rHi.2.mpu with pc := setPcHi rHi.2.mpu.pc rHi.1 } }

/-! ### memory/oam.py -/

/-- memory/oam.py OAM: the 256-byte OAMRAM store (`RAM(255)` builds a
256-cell list), the DMA latch, and the `addr`/`data`/`dma` port values. -/
structure OAMState where
  store : List Nat
  latch : Bool
  addr : Nat
  data : Nat
  dma : Nat

/-- memory/oam.py OAMRAM.write (oam.py:50-51): `self.store[loc] = data`,
a plain Python list assignment that raises IndexError when `loc` is not
below the list length. -/
def oamRamWrite (store : List Nat) (loc : Nat) (d : Nat) :
    List Nat × Option PyErr :=
  if loc < store.length then (store.set loc d, none)
  else (store, some (.indexErr "list assignment index out of range"))

/-- memory/oam.py OAM.write (oam.py:78-87): clear the latch; 0x2003 sets
the OAM address pointer; 0x2004 writes the data byte at the pointer (a
raw list assignment) and then increments the pointer with no 8-bit wrap;
0x4014 sets the latch and the DMA page. -/
def oamWrite (s : OAMState) (loc : Nat) (d : Nat) : OAMState × Option PyErr :=
  let s0 := { s with latch := false }
  if loc = 0x2003 then ({ s0 with addr := d }, none)
  else if loc = 0x2004 then
    let w := oamRamWrite s0.store s0.addr d
    match w.2 with
    | none => ({ s0 with store := w.1, addr := s0.addr + 1 }, none)
    | some e => ({ s0 with store := w.1 }, some e)
  else if loc = 0x4014 then ({ s0 with latch := true, dma := d }, none)
  else (s0, none)

/-- memory/oam.py OAM.read (oam.py:66-76): 0x2003 reads 0; 0x2004 reads
`self._oam_storage.store[self.addr]` (IndexError when the pointer is not
below the list length); 0x4014 reads the DMA page; anything else reads
0. -/
def oamRead (s : OAMState) (loc : Nat) : Except PyErr Nat :=
  if loc = 0x2003 then .ok 0
  else if loc = 0x2004 then
    if h : s.addr < s.store.length then .ok (s.store.get ⟨s.addr, h⟩)
    else .error (.indexErr "list index out of range")
  else if loc = 0x4014 then .ok s.dma
  else .ok 0

/-! ### Concrete machines used by witnesses and counterexample evaluations -/

/-- All-clear flag register. -/
def flags0 : Flags :=
  { sign := 0, overflow := 0, breakFlag := 0, decimal := 0, interrupt := 0,
    zero := 0, carry := 0 }

/-- All-set flag register (for the branch conditions that need a 1). -/
def flags1 : Flags :=
  { sign := 1, overflow := 1, breakFlag := 0, decimal := 0, interrupt := 0,
    zero := 1, carry := 1 }

/-- A freshly constructed MPU: zeroed registers and RAM, stack origin
0x1FF. -/
def mpu0 : MPUState :=
  { pc := 0, a := 0, x := 0, y := 0, flags := flags0, sp := 0x1FF,
    ram := fun _ => 0 }

/-- A PPU member with trivial state, standing in for the concrete PPU in
closed evaluations (none of them route to a PPU port). -/
def unitIface : PpuIface Unit :=
  { read := fun u _ => (0, u), write := fun u _ _ => u, dmaPage := fun _ => 0 }

/-- The bus of the repository wired to the trivial PPU member. -/
def bus0 : Bus Unit := mkBus unitIface

/-- A zeroed whole machine. -/
def sys0 : Sys Unit := { mpu := mpu0, ppu := () }

/-- Machine ready to run a taken branch whose condition flag is 0: pc at
the displacement byte (opcode assumed at 0x8000), RAM zeroed so the
displacement is 0x00. -/
def sysBr0 : Sys Unit := { sys0 with mpu := { mpu0 with pc := 0x8001 } }

/-- Same, for the branches whose condition flag must be 1. -/
def sysBr1 : Sys Unit :=
  { sys0 with mpu := { mpu0 with pc := 0x8001, flags := flags1 } }

/-- A fresh OAM with the address pointer parked at the last byte. -/
def oam0 : OAMState :=
  { store := List.replicate 256 0, latch := false, addr := 0xFF, data := 0,
    dma := 0 }

/-! ### Helper lemmas -/

/-- A bus read never changes the MPU side of the machine (it either
delegates to the ppu member or just reads the MPU RAM). -/
theorem busRead_mpu {π : Type} (b : Bus π) (s : Sys π) (loc : Int) :
    ((b.read s loc).2).mpu = s.mpu := by
  unfold Bus.read
  by_cases h : mirrorMapPpu loc ∈ b.roMmap <;> simp [h]

/-- On the repository's port maps, a bus read outside the PPU read ports
returns the MPU RAM value at the reduced address. -/
theorem mkBusRead_val {π : Type} (i : PpuIface π) (s : Sys π) (loc : Int)
    (h : mirrorMapPpu loc ∉ ro_mmap) :
    ((mkBus i).read s loc).1 = mpuRead s.mpu (mirrorMapPpu loc) := by
  simp only [Bus.read, mkBus]
  rw [if_neg h]

/-- On the repository's port maps, a bus read outside the PPU read ports
leaves the machine unchanged. -/
theorem mkBusRead_sys {π : Type} (i : PpuIface π) (s : Sys π) (loc : Int)
    (h : mirrorMapPpu loc ∉ ro_mmap) :
    ((mkBus i).read s loc).2 = s := by
  simp only [Bus.read, mkBus]
  rw [if_neg h]

/-- A data fetch advances the pc and touches nothing else on the MPU. -/
theorem dataFetch_mpu {π : Type} (b : Bus π) (s : Sys π) :
    ((dataFetch b s).2).mpu = { s.mpu with pc := advancePc s.mpu.pc } := by
  simp only [dataFetch]
  rw [busRead_mpu]

/-- An address fetch advances the pc twice and touches nothing else on
the MPU. -/
theorem addrFetch_mpu {π : Type} (b : Bus π) (s : Sys π) :
    ((addrFetch b s).2).mpu
      = { s.mpu with pc := advancePc (advancePc s.mpu.pc) } := by
  simp only [addrFetch]
  rw [dataFetch_mpu, dataFetch_mpu]

/-- `_decrement_sp` always lands inside page 1. -/
theorem decSp_mem (sp : Nat) : 0x100 ≤ decSp sp ∧ decSp sp ≤ 0x1FF := by
  unfold decSp
  omega

/-- Increment undoes decrement for a page-1 stack pointer. -/
theorem incSp_decSp (sp : Nat) (h1 : 0x100 ≤ sp) (h2 : sp ≤ 0x1FF) :
    incSp (decSp sp) = sp := by
  unfold incSp decSp
  omega

/-- Decrement always moves the stack pointer. -/
theorem decSp_ne (sp : Nat) : decSp sp ≠ sp := by
  unfold decSp
  omega

/-! ### Claim theorems -/

/-- Claim C1: SBC is claimed to compute `A = A - M - (1 - C)` with carry
set iff no borrow occurred.  Evaluating the code at A = 0x01, M = 0x00,
C = 0 (the claim demands A = 0x00 and carry = 1): `_sbc` subtracts `C`
(not `1 - C`), and before reaching its carry/store lines it raises
AttributeError at the nonexistent `FlagRegister.update_overflow`, so the
accumulator stays 0x01 and the carry stays 0. -/
theorem sbc_diverges_from_borrow_rule :
    (sbcData { mpu0 with a := 1 } 0).1.a = 1 ∧
    (sbcData { mpu0 with a := 1 } 0).1.flags.carry = 0 ∧
    (sbcData { mpu0 with a := 1 } 0).2 =
      some (.attributeErr
        "FlagRegister object has no attribute update_overflow") := by
  decide

/-- Claim C2: the compare instructions are claimed to set carry iff
register ≥ operand.  The code sets carry from `(result & 0xFF00) != 0`,
which holds exactly when the Python difference is negative, i.e. when
register < operand: at register = 5, operand = 3 the code leaves carry 0
(claim demands 1), and at register = 3, operand = 5 it sets carry 1
(claim demands 0); CPX and CPY behave the same way.  The register itself
is left unchanged, as the claim says. -/
theorem cmp_carry_inverted :
    (cmpData { mpu0 with a := 5 } 3).flags.carry = 0 ∧
    (cmpData { mpu0 with a := 3 } 5).flags.carry = 1 ∧
    (cmpData { mpu0 with a := 5 } 3).a = 5 ∧
    (cpxData { mpu0 with x := 5 } 3).flags.carry = 0 ∧
    (cpyData { mpu0 with y := 5 } 3).flags.carry = 0 := by
  decide

/-- Claim C3: a taken branch is claimed to land at (address after the
operand byte) + displacement with no additional increment.  With the
opcode at 0x8000, the displacement byte 0x00 at 0x8001 and the branch
condition true, the address after the operand is 0x8002 and the claim
demands PC = 0x8002; all eight branch handlers end at 0x8003 instead,
because `ProgramCounter.displace_pc` calls `advance_pc` again before
adding the displacement.  (A non-taken branch does consume the operand:
BCS with carry = 0 ends at 0x8002.) -/
theorem branch_taken_overshoots :
    (bcc bus0 sysBr0).mpu.pc = 0x8003 ∧ (bne bus0 sysBr0).mpu.pc = 0x8003 ∧
    (bpl bus0 sysBr0).mpu.pc = 0x8003 ∧ (bvc bus0 sysBr0).mpu.pc = 0x8003 ∧
    (bcs bus0 sysBr1).mpu.pc = 0x8003 ∧ (beq bus0 sysBr1).mpu.pc = 0x8003 ∧
    (bmi bus0 sysBr1).mpu.pc = 0x8003 ∧ (bvs bus0 sysBr1).mpu.pc = 0x8003 ∧
    (bcs bus0 sysBr0).mpu.pc = 0x8002 ∧ (bcc bus0 sysBr1).mpu.pc = 0x8002 := by
  decide

/-- Claim C4: ADC is claimed to store (A + M + C) mod 256, with carry from
bit 8 of the intermediate, sign/zero from the stored result and the
classic overflow rule.  At A = 0x00, M = 0x80, C = 0 the claim demands
A = 0x80, sign = 1, zero = 0 with no error; the code updates every flag
from the OLD accumulator (sign = 0, zero = 1) and raises AttributeError at
the nonexistent `FlagRegister.update_overflow` before storing, so A stays
0x00.  At A = 0x80, M = 0, C = 0 the claim demands carry = 0 (bit 8 of
0x80), but `update_carry(self._a)` tests bit 7 of the old A and sets
carry = 1. -/
theorem adc_flags_from_stale_accumulator :
    (adcData { mpu0 with a := 0 } 0x80).1.a = 0 ∧
    (adcData { mpu0 with a := 0 } 0x80).1.flags.sign = 0 ∧
    (adcData { mpu0 with a := 0 } 0x80).1.flags.zero = 1 ∧
    (adcData { mpu0 with a := 0x80 } 0).1.flags.carry = 1 ∧
    (adcData { mpu0 with a := 0 } 0x80).2 =
      some (.attributeErr
        "FlagRegister object has no attribute update_overflow") := by
  decide

/-- Claim C5: ROR then ROL is claimed to restore the accumulator and the
carry, both instructions completing without error.  In fact ROR never
completes: `_ror` calls `update_carry(data, bit_high=False)` while the
parameter of `update_carry` is named `bit7`, so every accumulator-mode ROR
raises TypeError with the machine unchanged and the round trip cannot even
start. -/
theorem ror_raises_typeerror (st : MPUState) :
    rorAcc st =
      (st, some (.typeErr
        "update_carry got an unexpected keyword argument bit_high")) := rfl

/-- Witness for the ROR theorem at the concrete machine `mpu0`. -/
theorem ror_raises_typeerror_witness :
    rorAcc mpu0 =
      (mpu0, some (.typeErr
        "update_carry got an unexpected keyword argument bit_high")) :=
  ror_raises_typeerror mpu0

/-- Claim C6: the claim demands that `bus.write(a, v)` followed by
`bus.read(a mod 0x800)` return `v` for every `a` in 0x0000..0x1FFF.  On a
zeroed machine, writing 0x01 to 0x0800 and reading 0x0000 returns 0x00:
`MPU.write` stores straight into `store[loc % 0xFFFF]` (here cell 0x0800)
without any mirroring, and `RAM._mirror_map` itself returns 0x0800
unchanged because its first branch tests `loc <= 0x07FFF` (= 32767)
instead of 0x07FF. -/
theorem workram_mirroring_absent :
    (Bus.read bus0 (Bus.write bus0 sys0 0x800 1) 0).1 = 0 ∧
    (Bus.write bus0 sys0 0x800 1).mpu.ram 0x800 = 1 ∧
    ramMirrorMap 0x800 = 0x800 := by
  decide

/-- Claim C7: for every CPU address in 0x2008..0x3FFF, a bus read returns
the same value (and produces the same machine) as a bus read of
0x2000 + (a mod 8): both reduce through `_mirror_map_ppu` to the same
port address and then take the same route. -/
theorem ppu_port_mirror_read {π : Type} (b : Bus π) (s : Sys π) (a : Int)
    (h1 : 0x2008 ≤ a) (h2 : a ≤ 0x3FFF) :
    b.read s a = b.read s (0x2000 + a % 8) := by
  have key : mirrorMapPpu a = mirrorMapPpu (0x2000 + a % 8) := by
    unfold mirrorMapPpu
    rw [if_pos ⟨h1, h2⟩, if_neg (by omega)]
    omega
  unfold Bus.read
  rw [key]

/-- Witness for the PPU-port mirroring theorem at a = 0x3FFF. -/
theorem ppu_port_mirror_read_witness :
    Bus.read bus0 sys0 0x3FFF = Bus.read bus0 sys0 (0x2000 + (0x3FFF : Int) % 8) :=
  ppu_port_mirror_read bus0 sys0 0x3FFF (by decide) (by decide)

/-- The MPU after a JSR handler: the pc holds the fetched target, the two
bytes of (operand address + 2 - 1) sit on the stack, and the stack
pointer went down twice. -/
theorem jsr_mpu {π : Type} (b : Bus π) (s : Sys π) :
    (jsr b s).mpu =
      { s.mpu with
        pc := ((addrFetch b s).1 : Int)
        sp := decSp (decSp s.mpu.sp)
        ram := Function.update
          (Function.update s.mpu.ram s.mpu.sp
            (pcHi (advancePc (advancePc s.mpu.pc) - 1)))
          (decSp s.mpu.sp)
          (pcLo (advancePc (advancePc s.mpu.pc) - 1)) } := by
  simp only [jsr, push]
  rw [addrFetch_mpu]

/-- Claim C8: from any machine whose stack pointer is in page 1, running
the JSR handler (pc at its first operand byte) and then the RTS handler
leaves pc = (operand address + 2) mod 2^16 — the byte right after the two
operand bytes — and restores the stack pointer, whatever target was
fetched. -/
theorem jsr_rts_returns_after_operands {π : Type} (b : Bus π) (s : Sys π)
    (h1 : 0x100 ≤ s.mpu.sp) (h2 : s.mpu.sp ≤ 0x1FF) :
    (rts (jsr b s)).mpu.pc = (s.mpu.pc + 2) % 65536 ∧
    (rts (jsr b s)).mpu.sp = s.mpu.sp := by
  have hA : (0 : Int) ≤ ((addrFetch b s).1 : Int) := Int.natCast_nonneg _
  simp only [rts, pop, jsr_mpu b s]
  rw [incSp_decSp (decSp s.mpu.sp) (decSp_mem _).1 (decSp_mem _).2]
  rw [Function.update_same]
  rw [incSp_decSp s.mpu.sp h1 h2]
  rw [Function.update_noteq (Ne.symm (decSp_ne s.mpu.sp))]
  rw [Function.update_same]
  refine ⟨?_, rfl⟩
  unfold advancePc setPcHi setPcLo pcLo pcHi
  omega

/-- Witness for the JSR/RTS round trip on the zeroed machine (operand
address 0x8001, so the expected return address is 0x8003). -/
theorem jsr_rts_returns_after_operands_witness :
    (rts (jsr bus0 sysBr0)).mpu.pc = (sysBr0.mpu.pc + 2) % 65536 ∧
    (rts (jsr bus0 sysBr0)).mpu.sp = sysBr0.mpu.sp :=
  jsr_rts_returns_after_operands bus0 sysBr0 (by decide) (by decide)

/-- Claim C9: `MPU.read`/`MPU.write` reduce the address modulo
0xFFFF = 65535 (not 0x10000), so 0xFFFF aliases 0x0000.  For any machine
with a page-1 stack pointer and any byte `v`: after `bus.write(0xFFFF, v)`
a `bus.read(0x0000)` returns `v`, and the BRK handler, whose vector fetch
reads `bus.read(0xFFFF)` for the pc high byte, really reads RAM cell 0:
the pc it loads is `v * 256 + (low byte of RAM[0xFFFE])`. -/
theorem addr_ffff_aliases_zero {π : Type} (i : PpuIface π) (s : Sys π)
    (v : Nat) (hv : v < 256) (h1 : 0x100 ≤ s.mpu.sp) (h2 : s.mpu.sp ≤ 0x1FF) :
    ((mkBus i).read (Bus.write (mkBus i) s 0xFFFF v) 0).1 = v ∧
    (brk (mkBus i) (Bus.write (mkBus i) s 0xFFFF v)).mpu.pc
      = (v : Int) * 256 + ((s.mpu.ram 0xFFFE % 256 : Nat) : Int) := by
  have hw : Bus.write (mkBus i) s 0xFFFF v =
      { s with mpu := { s.mpu with ram := Function.update s.mpu.ram 0 v } } := by
    simp only [Bus.write, mkBus]
    rw [show mirrorMapPpu 0xFFFF = 0xFFFF from by decide]
    rw [if_neg (by decide), if_neg (by decide)]
    simp only [mpuWrite]
    rw [show ((0xFFFF : Int) % 65535).toNat = 0 from by decide]
  rw [hw]
  have hd2 := decSp_mem (decSp s.mpu.sp)
  have hd1 := decSp_mem s.mpu.sp
  constructor
  · rw [mkBusRead_val i _ 0 (by decide)]
    rw [show mirrorMapPpu 0 = 0 from by decide]
    simp only [mpuRead]
    rw [show (((0 : Int)) % 65535).toNat = 0 from by decide]
    simp [Function.update_same]
  · simp only [brk, push]
    rw [mkBusRead_sys i _ 0xFFFE (by decide)]
    rw [mkBusRead_val i _ 0xFFFE (by decide)]
    rw [mkBusRead_sys i _ 0xFFFF (by decide)]
    rw [mkBusRead_val i _ 0xFFFF (by decide)]
    rw [show mirrorMapPpu 0xFFFE = 0xFFFE from by decide]
    rw [show mirrorMapPpu 0xFFFF = 0xFFFF from by decide]
    simp only [mpuRead]
    rw [show ((0xFFFE : Int) % 65535).toNat = 0xFFFE from by decide]
    rw [show ((0xFFFF : Int) % 65535).toNat = 0 from by decide]
    rw [Function.update_noteq (show (0xFFFE : Nat) ≠ decSp (decSp s.mpu.sp) by omega)]
    rw [Function.update_noteq (show (0xFFFE : Nat) ≠ decSp s.mpu.sp by omega)]
    rw [Function.update_noteq (show (0xFFFE : Nat) ≠ s.mpu.sp by omega)]
    rw [Function.update_noteq (show (0xFFFE : Nat) ≠ 0 by omega)]
    rw [Function.update_noteq (show (0 : Nat) ≠ decSp (decSp s.mpu.sp) by omega)]
    rw [Function.update_noteq (show (0 : Nat) ≠ decSp s.mpu.sp by omega)]
    rw [Function.update_noteq (show (0 : Nat) ≠ s.mpu.sp by omega)]
    rw [Function.update_same]
    unfold setPcHi setPcLo
    omega

/-- Witness for the 0xFFFF-aliasing theorem at v = 0xAB on the zeroed
machine. -/
theorem addr_ffff_aliases_zero_witness :
    ((mkBus unitIface).read (Bus.write (mkBus unitIface) sys0 0xFFFF 0xAB) 0).1
      = 0xAB ∧
    (brk (mkBus unitIface) (Bus.write (mkBus unitIface) sys0 0xFFFF 0xAB)).mpu.pc
      = (0xAB : Int) * 256 + ((sys0.mpu.ram 0xFFFE % 256 : Nat) : Int) :=
  addr_ffff_aliases_zero unitIface sys0 0xAB (by decide) (by decide) (by decide)

/-- Claim C10: the OAM address pointer is not wrapped to 8 bits by the
data-port auto-increment.  From any OAM whose pointer is 0xFF (store
length 256, as built by `OAMRAM()`): a write to port 0x2004 succeeds and
leaves the pointer at 0x100, and the next write or read of port 0x2004
raises IndexError on the 256-byte store instead of wrapping to entry 0. -/
theorem oam_pointer_overflow (s : OAMState) (d d2 : Nat)
    (ha : s.addr = 0xFF) (hl : s.store.length = 256) :
    (oamWrite s 0x2004 d).2 = none ∧
    (oamWrite s 0x2004 d).1.addr = 0x100 ∧
    (oamWrite (oamWrite s 0x2004 d).1 0x2004 d2).2 =
      some (.indexErr "list assignment index out of range") ∧
    oamRead (oamWrite s 0x2004 d).1 0x2004 =
      .error (.indexErr "list index out of range") := by
  obtain ⟨store, latch, addr, data, dma⟩ := s
  dsimp only at ha hl
  subst ha
  refine ⟨?_, ?_, ?_, ?_⟩ <;>
    simp [oamWrite, oamRamWrite, oamRead, List.length_set, hl]

set_option maxRecDepth 4000 in
/-- Witness for the OAM-overflow theorem at the concrete OAM `oam0`. -/
theorem oam_pointer_overflow_witness :
    (oamWrite oam0 0x2004 7).2 = none ∧
    (oamWrite oam0 0x2004 7).1.addr = 0x100 ∧
    (oamWrite (oamWrite oam0 0x2004 7).1 0x2004 9).2 =
      some (.indexErr "list assignment index out of range") ∧
    oamRead (oamWrite oam0 0x2004 7).1 0x2004 =
      .error (.indexErr "list index out of range") :=
  oam_pointer_overflow oam0 7 9 (by decide) (by decide)

end Chains
